import Mathlib

/-!
# Verification of the opencode-mem plugin dispatch layer

Shallow embedding of `src/opencode-plugin/src/index.ts` (the plugin entry
point: liveness prober, session sequencer, event dispatcher, query tool
facade) and of the OpenCode platform adapter (`opencodeAdapter`).

Network effects are modelled by passing each handler the outcome of its
`fetch` calls explicitly (`FetchOutcome`), and by recording every issued
HTTP request in an emitted `Request` list.  JavaScript values reachable
through unchecked `as` casts are modelled by the inductive `JSValue`.
-/

namespace OpencodeMem

/-- A JavaScript runtime value, as far as the plugin's unchecked casts can
observe it: `undefined`, `null`, primitives, objects (field lists) and
arrays. -/
inductive JSValue where
  | undef : JSValue
  | jnull : JSValue
  | str : String → JSValue
  | num : Int → JSValue
  | bool : Bool → JSValue
  | obj : List (String × JSValue) → JSValue
  | arr : List JSValue → JSValue
deriving Repr

/-- JavaScript nullish test (`value === undefined || value === null`),
the condition the `??` operator and the query-tool parameter filter use. -/
def nullish : JSValue → Bool
  | JSValue.undef => true
  | JSValue.jnull => true
  | _ => false

/-- JavaScript `a ?? b`: `b` when `a` is nullish, otherwise `a`. -/
def coalesce (a b : JSValue) : JSValue :=
  if nullish a then b else a

/-- Outcome of one `fetch` call as seen by the caller: a thrown network
error, a thrown timeout (from `AbortSignal.timeout`), or a response with an
HTTP status and a body text. -/
inductive FetchOutcome where
  | netError : String → FetchOutcome
  | timeout : FetchOutcome
  | resp : Nat → String → FetchOutcome
deriving Repr, DecidableEq

/-- `Response.ok`: status in the inclusive range 200–299. -/
def respOk (status : Nat) : Bool :=
  decide (200 ≤ status) && decide (status ≤ 299)

/-- `fetch` as an exception-throwing operation: network errors and
timeouts are thrown, a response (of any status) is returned. -/
def doFetch : FetchOutcome → Except String (Nat × String)
  | FetchOutcome.netError m => Except.error m
  | FetchOutcome.timeout => Except.error "The operation timed out"
  | FetchOutcome.resp st body => Except.ok (st, body)

/-- The timeout passed to `AbortSignal.timeout` in `ensureWorker`
(milliseconds). -/
def readinessTimeoutMs : Nat := 5000

/-- `ensureWorker`: fetch `GET /api/readiness` with a 5000 ms abort
signal inside `try`; return `response.ok`, and `false` on any thrown
error (network failure or timeout). -/
def ensureWorker (o : FetchOutcome) : Bool :=
  match doFetch o with
  | Except.ok (st, _) => respOk st
  | Except.error _ => false

/-- JavaScript `String.prototype.trim`: strip leading and trailing
whitespace.  Modelled over the character list so it evaluates inside the
kernel. -/
def jsTrim (s : String) : String :=
  String.mk (((s.data.dropWhile Char.isWhitespace).reverse.dropWhile
    Char.isWhitespace).reverse)

/-- One message of the compaction input
(`{ role?: string; content?: string }`; absent fields are `none`). -/
structure Msg where
  role : Option String
  content : Option String
deriving Repr, DecidableEq

/-- `messages.filter((m) => m.role === 'assistant').pop()?.content ?? ''`:
the content of the last assistant-role message, or the empty string. -/
def lastAssistantMessage (messages : List Msg) : String :=
  ((((messages.filter (fun m => m.role == some "assistant")).getLast?).bind
    Msg.content).getD "")

/-- The closure state of one plugin activation:
`let sessionInitialized = false; let sessionDbId: number | null = null`. -/
structure PluginState where
  sessionInitialized : Bool
  sessionDbId : Option Int
deriving Repr, DecidableEq

/-- The state at plugin construction. -/
def initialState : PluginState :=
  { sessionInitialized := false, sessionDbId := none }

/-- One outbound HTTP request, identified by endpoint and the
request-specific data the plugin puts in it.  Query-string serialization
by `URLSearchParams` is modelled as the (already filtered) key/value
list. -/
inductive Request where
  | readiness : Request
  | sessionsInit : String → String → String → Request
  | observations : String → String → String → Request
  | contextInject : String → Request
  | summarize : String → String → Request
  | search : List (String × JSValue) → Request
  | timeline : List (String × JSValue) → Request
  | observationsBatch : List Int → Request
deriving Repr

/-- `true` exactly for `POST /api/sessions/init` requests. -/
def isInitReq : Request → Bool
  | Request.sessionsInit _ _ _ => true
  | _ => false

/-- Number of `sessions/init` POSTs in a request list. -/
def initCount (reqs : List Request) : Nat :=
  (reqs.filter isInitReq).length

/-- `true` for every request other than the liveness probe. -/
def isDispatch : Request → Bool
  | Request.readiness => false
  | _ => true

/-- `contentSessionId` field of a request body, when the endpoint has
one. -/
def reqContentSessionId : Request → Option String
  | Request.sessionsInit c _ _ => some c
  | Request.observations c _ _ => some c
  | Request.summarize c _ => some c
  | _ => none

/-- Environment of one `chat.message` call: outcome of the readiness
fetch, outcome of the `sessions/init` POST, and the result of
`response.json()` on it — `.ok dbId` is a decoded body whose
`sessionDbId ?? null` field is `dbId`; `.error` is a thrown parse
failure. -/
structure ChatEnv where
  liveness : FetchOutcome
  initOutcome : FetchOutcome
  jsonResult : Except String (Option Int)
deriving Repr

/-- Environment of one fire-and-forget dispatch call (`tool.execute.after`,
`experimental.chat.system.transform`, `experimental.session.compacting`):
the readiness fetch outcome and the dispatch fetch outcome. -/
structure DispatchEnv where
  liveness : FetchOutcome
  callOutcome : FetchOutcome
deriving Repr

/-- Environment of one query-tool `execute` call: readiness outcome,
remote call outcome, and the `response.json()` decode result. -/
structure ToolEnv where
  liveness : FetchOutcome
  callOutcome : FetchOutcome
  jsonResult : Except String JSValue
deriving Repr

/-- Value a query tool resolves with: the decoded remote response passed
through, or the structured `{ error: string }` object. -/
inductive ToolResult where
  | success : JSValue → ToolResult
  | failure : String → ToolResult
deriving Repr

/-- The query-parameter loop shared by `mem-search` and `mem-timeline`:
`URLSearchParams.set(key, String(value))` for every entry whose value is
neither `undefined` nor `null`; modelled as the filtered key/value
list. -/
def filterParams (params : List (String × JSValue)) : List (String × JSValue) :=
  params.filter (fun p => !(nullish p.2))

/-- `mem-search`'s `execute`: liveness gate, then inside `try`: issue
`GET /api/search?...`; non-ok status returns `Search failed: <status>`;
otherwise the decoded JSON is returned; any thrown error is caught and
returned as `Search error: <message>`. -/
def memSearchExecute (env : ToolEnv) (params : List (String × JSValue)) :
    ToolResult × List Request :=
  if !ensureWorker env.liveness then
    (ToolResult.failure "Worker service unavailable", [Request.readiness])
  else
    let reqs := [Request.readiness, Request.search (filterParams params)]
    let body : Except String ToolResult := do
      let (st, _) ← doFetch env.callOutcome
      if !respOk st then
        pure (ToolResult.failure ("Search failed: " ++ toString st))
      else do
        let v ← env.jsonResult
        pure (ToolResult.success v)
    match body with
    | Except.ok r => (r, reqs)
    | Except.error e => (ToolResult.failure ("Search error: " ++ e), reqs)

/-- `mem-timeline`'s `execute`: same shape as `mem-search` against
`GET /api/timeline?...`, with `Timeline failed:` / `Timeline error:`
messages. -/
def memTimelineExecute (env : ToolEnv) (params : List (String × JSValue)) :
    ToolResult × List Request :=
  if !ensureWorker env.liveness then
    (ToolResult.failure "Worker service unavailable", [Request.readiness])
  else
    let reqs := [Request.readiness, Request.timeline (filterParams params)]
    let body : Except String ToolResult := do
      let (st, _) ← doFetch env.callOutcome
      if !respOk st then
        pure (ToolResult.failure ("Timeline failed: " ++ toString st))
      else do
        let v ← env.jsonResult
        pure (ToolResult.success v)
    match body with
    | Except.ok r => (r, reqs)
    | Except.error e => (ToolResult.failure ("Timeline error: " ++ e), reqs)

/-- `mem-get-observations`'s `execute`: liveness gate, then inside `try`:
POST the ids to `/api/observations/batch`; non-ok status returns
`Fetch failed: <status>`; otherwise the decoded JSON is returned; any
thrown error is caught and returned as `Fetch error: <message>`. -/
def memGetObservationsExecute (env : ToolEnv) (ids : List Int) :
    ToolResult × List Request :=
  if !ensureWorker env.liveness then
    (ToolResult.failure "Worker service unavailable", [Request.readiness])
  else
    let reqs := [Request.readiness, Request.observationsBatch ids]
    let body : Except String ToolResult := do
      let (st, _) ← doFetch env.callOutcome
      if !respOk st then
        pure (ToolResult.failure ("Fetch failed: " ++ toString st))
      else do
        let v ← env.jsonResult
        pure (ToolResult.success v)
    match body with
    | Except.ok r => (r, reqs)
    | Except.error e => (ToolResult.failure ("Fetch error: " ++ e), reqs)

/-- Which query tool is being called, with its already-typed input
(`params` record entries for search/timeline, the `ids` array for
batch fetch). -/
inductive ToolCall where
  | memSearch : List (String × JSValue) → ToolCall
  | memTimeline : List (String × JSValue) → ToolCall
  | memGetObservations : List Int → ToolCall
deriving Repr

/-- One host-triggered entry into the plugin, carrying the host-supplied
input (already destructured the way the handler reads it) and the
environment outcomes of the fetches the handler performs. -/
inductive Event where
  | chatMessage : ChatEnv → String → String → Event
  | toolExecuteAfter : DispatchEnv → String → String → Event
  | systemTransform : DispatchEnv → String → Option String → Event
  | sessionCompacting : DispatchEnv → List Msg → Event
  | toolCall : ToolEnv → ToolCall → Event

/-- What the handler hands back to the host: nothing (lifecycle hooks),
a possibly-rewritten `output.system` string (system transform), or a
tool result. -/
inductive HostOutput where
  | none : HostOutput
  | system : Option String → HostOutput
  | toolResult : ToolResult → HostOutput
deriving Repr

/-- One handler invocation of the plugin, as the host would await it:
given the closure's `sessionId`, the current closure state and the event
(with its fetch outcomes), produce the new closure state, the list of
HTTP requests issued, and the host-visible output.  Mirrors the `hooks`
object of `ClaudeMemPlugin` handler by handler. -/
def step (sessionId : String) (s : PluginState) (e : Event) :
    PluginState × List Request × HostOutput :=
  match e with
  | Event.chatMessage env project prompt =>
    -- 'chat.message': liveness gate, then the initialized gate, then the
    -- init POST; on ok status decode the body and set both state fields.
    if !ensureWorker env.liveness then (s, [Request.readiness], HostOutput.none)
    else if s.sessionInitialized then (s, [Request.readiness], HostOutput.none)
    else
      let reqs := [Request.readiness, Request.sessionsInit sessionId project prompt]
      match env.initOutcome with
      | FetchOutcome.resp status _ =>
        if respOk status then
          match env.jsonResult with
          | Except.ok dbId =>
            ({ sessionInitialized := true, sessionDbId := dbId }, reqs, HostOutput.none)
          | Except.error _ => (s, reqs, HostOutput.none)
        else (s, reqs, HostOutput.none)
      | _ => (s, reqs, HostOutput.none)
  | Event.toolExecuteAfter env toolName cwd =>
    -- 'tool.execute.after': liveness gate, initialized gate, then the
    -- observations POST (outcome caught silently).
    if !ensureWorker env.liveness then (s, [Request.readiness], HostOutput.none)
    else if !s.sessionInitialized then (s, [Request.readiness], HostOutput.none)
    else
      (s, [Request.readiness, Request.observations sessionId toolName cwd],
        HostOutput.none)
  | Event.systemTransform env project system =>
    -- 'experimental.chat.system.transform': liveness gate, then
    -- GET context/inject; on ok status with non-blank text, append the
    -- context to output.system after a blank line.
    if !ensureWorker env.liveness then (s, [Request.readiness], HostOutput.system system)
    else
      let reqs := [Request.readiness, Request.contextInject project]
      match env.callOutcome with
      | FetchOutcome.resp status body =>
        if respOk status then
          if jsTrim body ≠ "" then
            (s, reqs, HostOutput.system (some ((system.getD "") ++ "\n\n" ++ body)))
          else (s, reqs, HostOutput.system system)
        else (s, reqs, HostOutput.system system)
      | _ => (s, reqs, HostOutput.system system)
  | Event.sessionCompacting env messages =>
    -- 'experimental.session.compacting': liveness gate, initialized gate,
    -- then POST summarize with the last assistant message.
    if !ensureWorker env.liveness then (s, [Request.readiness], HostOutput.none)
    else if !s.sessionInitialized then (s, [Request.readiness], HostOutput.none)
    else
      (s, [Request.readiness,
        Request.summarize sessionId (lastAssistantMessage messages)],
        HostOutput.none)
  | Event.toolCall env call =>
    -- The tool executes close over no session state: they read and write
    -- neither sessionInitialized nor sessionDbId.
    match call with
    | ToolCall.memSearch params =>
      let r := memSearchExecute env params
      (s, r.2, HostOutput.toolResult r.1)
    | ToolCall.memTimeline params =>
      let r := memTimelineExecute env params
      (s, r.2, HostOutput.toolResult r.1)
    | ToolCall.memGetObservations ids =>
      let r := memGetObservationsExecute env ids
      (s, r.2, HostOutput.toolResult r.1)

/-- A sequence of handler invocations, threading the closure state and
concatenating the issued requests. -/
def run (sessionId : String) (s : PluginState) (events : List Event) :
    PluginState × List Request :=
  match events with
  | [] => (s, [])
  | e :: rest =>
    let r := step sessionId s e
    let r' := run sessionId r.1 rest
    (r'.1, r.2.1 ++ r'.2)

/-- `true` exactly for query-tool invocations. -/
def isToolCall : Event → Bool
  | Event.toolCall _ _ => true
  | _ => false

/-!
## The OpenCode platform adapter (`adapters/opencode.ts`)
-/

/-- Property lookup on an object's field list; a missing field reads as
`undefined`. -/
def lookupProp (fields : List (String × JSValue)) (k : String) : JSValue :=
  match fields.find? (fun p => p.1 == k) with
  | some p => p.2
  | none => JSValue.undef

/-- JavaScript property read `r.k` after an unchecked cast: throws a
`TypeError` when the receiver is `undefined` or `null`; reads the field
(or `undefined`) on an object; yields `undefined` on other primitives
(which box and have no such own property). -/
def getProp : JSValue → String → Except String JSValue
  | JSValue.undef, k =>
    Except.error ("TypeError: Cannot read properties of undefined (reading " ++ k ++ ")")
  | JSValue.jnull, k =>
    Except.error ("TypeError: Cannot read properties of null (reading " ++ k ++ ")")
  | JSValue.obj fields, k => Except.ok (lookupProp fields k)
  | _, _ => Except.ok JSValue.undef

/-- The property a non-nullish receiver yields for key `k` (what
`getProp` returns when it does not throw). -/
def propD : JSValue → String → JSValue
  | JSValue.obj fields, k => lookupProp fields k
  | _, _ => JSValue.undef

/-- The `NormalizedHookInput` record as `opencodeAdapter.normalizeInput`
builds it.  Fields hold whatever JS value the unchecked casts let
through; `platform` is the literal tag. -/
structure NormalizedHookInput where
  sessionId : JSValue
  cwd : JSValue
  platform : String
  prompt : JSValue
  toolName : JSValue
  toolInput : JSValue
  toolResponse : JSValue
  transcriptPath : JSValue
deriving Repr

/-- `opencodeAdapter.normalizeInput(raw)`: cast `raw` to a record and
read its fields, with `??` fallbacks for `sessionId` (to `'unknown'`),
`cwd` (to `directory`, then `process.cwd()`, passed here as
`processCwd`) and `toolResponse` (to `toolOutput ?? toolResponse`);
`platform` is always `'opencode'` and `transcriptPath` always
`undefined`.  Property reads throw when `raw` is `undefined`/`null`. -/
def normalizeInput (processCwd : String) (raw : JSValue) :
    Except String NormalizedHookInput := do
  let sessionId ← getProp raw "sessionId"
  let cwd ← getProp raw "cwd"
  let directory ← getProp raw "directory"
  let prompt ← getProp raw "prompt"
  let toolName ← getProp raw "toolName"
  let toolInput ← getProp raw "toolInput"
  let toolOutput ← getProp raw "toolOutput"
  let toolResponse ← getProp raw "toolResponse"
  pure
    { sessionId := coalesce sessionId (JSValue.str "unknown")
      cwd := coalesce cwd (coalesce directory (JSValue.str processCwd))
      platform := "opencode"
      prompt := prompt
      toolName := toolName
      toolInput := toolInput
      toolResponse := coalesce toolOutput toolResponse
      transcriptPath := JSValue.undef }

/-!
## Claim theorems
-/

/-- C6: `ensureWorker` always resolves and never throws (it is a total
Boolean function of the fetch outcome, catching every thrown error); its
readiness probe uses a timeout of at most 5 seconds; it returns `false`
on any network error, timeout, or non-success status, and `true` exactly
when the readiness response has a success status. -/
theorem C6_ensureWorker_contract :
    readinessTimeoutMs ≤ 5000 ∧
    ∀ o : FetchOutcome, ensureWorker o = true ↔
      ∃ st body, o = FetchOutcome.resp st body ∧ respOk st = true := by
  refine ⟨le_refl _, ?_⟩
  intro o
  cases o with
  | netError m => simp [ensureWorker, doFetch]
  | timeout => simp [ensureWorker, doFetch]
  | resp st body => simp [ensureWorker, doFetch]

/-- C4: in the context-injection hook, when the liveness check passes and
the remote responds with a success status, a whitespace-only (or empty)
context body leaves the host's `output.system` unchanged, and a
non-blank body rewrites it to the original content followed by exactly
one blank line (the two-newline separator) and then the retrieved
content, preserving the original verbatim as a prefix. -/
theorem C4_context_injection (sid : String) (s : PluginState) (project : String)
    (system : Option String) (live : FetchOutcome) (st : Nat) (body : String)
    (hl : ensureWorker live = true) (hok : respOk st = true) :
    (jsTrim body = "" →
      (step sid s (Event.systemTransform ⟨live, FetchOutcome.resp st body⟩ project system)).2.2
        = HostOutput.system system) ∧
    (jsTrim body ≠ "" →
      (step sid s (Event.systemTransform ⟨live, FetchOutcome.resp st body⟩ project system)).2.2
        = HostOutput.system (some ((system.getD "") ++ "\n\n" ++ body))) := by
  constructor <;> intro h <;> simp [step, hl, hok, h]

/-- Witness for C4 at concrete inputs: a non-blank retrieved context is
appended to the existing system content after one blank line. -/
theorem C4_witness :
    (step "sid" initialState (Event.systemTransform
      ⟨FetchOutcome.resp 200 "ok", FetchOutcome.resp 200 "remembered"⟩
      "proj" (some "orig"))).2.2
      = HostOutput.system (some "orig\n\nremembered") := by
  have h := (C4_context_injection "sid" initialState "proj" (some "orig")
    (FetchOutcome.resp 200 "ok") 200 "remembered" (by decide) (by decide)).2 (by decide)
  rw [h]
  rfl

/-- C5: the compaction hook forwards the content of the final
assistant-role message in the list (the last match in order): whenever
that last match has content `c`, the computed `last_assistant_message`
is `c`, and (for an initialized session whose liveness check passes) the
only dispatch issued is the summarize POST carrying exactly `c`. -/
theorem C5_last_assistant (msgs : List Msg) (m : Msg) (c : String)
    (hm : (msgs.filter (fun x => x.role == some "assistant")).getLast? = some m)
    (hc : m.content = some c) :
    lastAssistantMessage msgs = c ∧
    ∀ (sid : String) (d : Option Int) (env : DispatchEnv),
      ensureWorker env.liveness = true →
      (step sid ⟨true, d⟩ (Event.sessionCompacting env msgs)).2.1 =
        [Request.readiness, Request.summarize sid c] := by
  have h1 : lastAssistantMessage msgs = c := by
    simp [lastAssistantMessage, hm, hc]
  refine ⟨h1, ?_⟩
  intro sid d env hl
  simp [step, hl, h1]

/-- Witness for C5 on the spec's concrete list
`[user, assistant "A", user, assistant "B"]`: the forwarded value is
`"B"`. -/
theorem C5_witness :
    lastAssistantMessage
      [⟨some "user", some "u1"⟩, ⟨some "assistant", some "A"⟩,
       ⟨some "user", some "u2"⟩, ⟨some "assistant", some "B"⟩] = "B" :=
  (C5_last_assistant _ ⟨some "assistant", some "B"⟩ "B" (by decide) rfl).1

/-- C3 fails as stated: `normalizeInput` is not total over all raw input
values — applied to `null` it throws a `TypeError` (property read on a
nullish receiver), and a host-supplied `null` field is passed through as
`null` rather than resolved to an absent/`undefined` value (here
`prompt`). -/
theorem C3_counterexample :
    (normalizeInput "/work" JSValue.jnull).isOk = false ∧
    ∃ out, normalizeInput "/work" (JSValue.obj [("prompt", JSValue.jnull)])
      = Except.ok out ∧ out.prompt = JSValue.jnull := by
  exact ⟨rfl, ⟨_, rfl, rfl⟩⟩

/-- C3 (amended): for every raw input that is not `undefined`/`null`
(including the empty object), `normalizeInput` never raises; the result
always has `platform = "opencode"`; `sessionId` falls back to
`"unknown"`; `cwd` falls back to the process's working directory when
the host supplies neither `cwd` nor `directory`; `transcriptPath` is
absent; and optional fields such as `prompt` are passed through exactly
as provided (so a host-supplied `null` is passed through, not converted
to an absent value). -/
theorem C3_normalizeInput_total (processCwd : String) (raw : JSValue)
    (h : nullish raw = false) :
    ∃ out, normalizeInput processCwd raw = Except.ok out ∧
      out.platform = "opencode" ∧
      out.sessionId = coalesce (propD raw "sessionId") (JSValue.str "unknown") ∧
      (nullish (propD raw "cwd") = true → nullish (propD raw "directory") = true →
        out.cwd = JSValue.str processCwd) ∧
      out.transcriptPath = JSValue.undef ∧
      out.prompt = propD raw "prompt" := by
  cases raw with
  | undef => simp [nullish] at h
  | jnull => simp [nullish] at h
  | str s => exact ⟨_, rfl, rfl, rfl, fun _ _ => rfl, rfl, rfl⟩
  | num n => exact ⟨_, rfl, rfl, rfl, fun _ _ => rfl, rfl, rfl⟩
  | bool b => exact ⟨_, rfl, rfl, rfl, fun _ _ => rfl, rfl, rfl⟩
  | arr items => exact ⟨_, rfl, rfl, rfl, fun _ _ => rfl, rfl, rfl⟩
  | obj fields =>
    refine ⟨_, rfl, rfl, rfl, ?_, rfl, rfl⟩
    intro h1 h2
    simp [propD] at h1 h2
    simp [coalesce, h1, h2]

/-- Witness for C3 (amended) at the empty object: normalization succeeds,
tags the platform, and falls back to the process working directory. -/
theorem C3_witness :
    ∃ out, normalizeInput "/workspace" (JSValue.obj []) = Except.ok out ∧
      out.platform = "opencode" ∧ out.cwd = JSValue.str "/workspace" := by
  obtain ⟨out, h1, h2, _, h4, _, _⟩ :=
    C3_normalizeInput_total "/workspace" (JSValue.obj []) rfl
  exact ⟨out, h1, h2, h4 rfl rfl⟩

/-- Helper: once the session is initialized, every handler invocation
leaves the closure state untouched (only the uninitialized branch of
`chat.message` writes it). -/
theorem step_initialized_fixed (sid : String) (s : PluginState) (e : Event)
    (hs : s.sessionInitialized = true) : (step sid s e).1 = s := by
  cases e with
  | chatMessage env project prompt =>
    simp only [step]
    repeat' split
    all_goals simp_all
  | toolExecuteAfter env t c =>
    simp only [step]
    repeat' split
    all_goals simp_all
  | systemTransform env p sys =>
    simp only [step]
    repeat' split
    all_goals simp_all
  | sessionCompacting env msgs =>
    simp only [step]
    repeat' split
    all_goals simp_all
  | toolCall env call =>
    cases call <;> rfl

/-- Helper: the number of `sessions/init` POSTs one handler invocation
issues — one exactly when the event is a chat message handled while
uninitialized with a passing liveness check, zero otherwise. -/
theorem initCount_step (sid : String) (s : PluginState) (e : Event) :
    initCount (step sid s e).2.1 =
      match e with
      | Event.chatMessage env _ _ =>
        if s.sessionInitialized = false ∧ ensureWorker env.liveness = true then 1 else 0
      | _ => 0 := by
  cases e with
  | chatMessage env project prompt =>
    simp only [step]
    repeat' split
    all_goals simp_all [initCount, isInitReq]
  | toolExecuteAfter env t c =>
    simp only [step]
    repeat' split
    all_goals simp_all [initCount, isInitReq]
  | systemTransform env p sys =>
    simp only [step]
    repeat' split
    all_goals simp_all [initCount, isInitReq]
  | sessionCompacting env msgs =>
    simp only [step]
    repeat' split
    all_goals simp_all [initCount, isInitReq]
  | toolCall env call =>
    cases call <;>
      simp only [step, memSearchExecute, memTimelineExecute,
        memGetObservationsExecute] <;>
      (repeat' split) <;>
      simp_all [initCount, isInitReq]

/-- Helper: a run started in an initialized state issues no
`sessions/init` POST at all. -/
theorem run_initialized_no_init (sid : String) (events : List Event) :
    ∀ s : PluginState, s.sessionInitialized = true →
      initCount (run sid s events).2 = 0 := by
  induction events with
  | nil => intro s _; rfl
  | cons e rest ih =>
    intro s hs
    have hfix := step_initialized_fixed sid s e hs
    have hcount := initCount_step sid s e
    have hzero : initCount (step sid s e).2.1 = 0 := by
      rw [hcount]
      cases e <;> simp [hs]
    have hrest := ih (step sid s e).1 (by rw [hfix]; exact hs)
    simp only [run, initCount, List.filter_append, List.length_append] at *
    omega

/-- C9: the initialized flag starts `false` at plugin construction and,
once `true`, is never reset by any handler or tool (the whole state is
then fixed); conversely, whenever a handler invocation turns the flag
`true`, the event was a chat message whose liveness check passed, whose
`sessions/init` POST returned a success status, and whose response body
decoded successfully — and on that same transition `sessionDbId` is set
to the decoded body's `sessionDbId` field (`none` when absent). -/
theorem C9_initialized_flag :
    (initialState.sessionInitialized = false ∧ initialState.sessionDbId = none) ∧
    (∀ (sid : String) (s : PluginState) (e : Event),
      s.sessionInitialized = true → (step sid s e).1 = s) ∧
    (∀ (sid : String) (s : PluginState) (e : Event),
      (step sid s e).1.sessionInitialized = true →
      s.sessionInitialized = true ∨
      ∃ env project prompt, e = Event.chatMessage env project prompt ∧
        ensureWorker env.liveness = true ∧
        (∃ st body, env.initOutcome = FetchOutcome.resp st body ∧ respOk st = true) ∧
        ∃ dbId, env.jsonResult = Except.ok dbId ∧
          (step sid s e).1.sessionDbId = dbId) := by
  refine ⟨⟨rfl, rfl⟩, step_initialized_fixed, ?_⟩
  intro sid s e h
  cases e with
  | chatMessage env project prompt =>
    by_cases hs : s.sessionInitialized = true
    · exact Or.inl hs
    · cases hl : ensureWorker env.liveness with
      | false => exact absurd (by simpa [step, hl] using h) hs
      | true =>
        cases ho : env.initOutcome with
        | netError m => exact absurd (by simpa [step, hl, hs, ho] using h) hs
        | timeout => exact absurd (by simpa [step, hl, hs, ho] using h) hs
        | resp st body =>
          cases hok : respOk st with
          | false => exact absurd (by simpa [step, hl, hs, ho, hok] using h) hs
          | true =>
            cases hj : env.jsonResult with
            | error m => exact absurd (by simpa [step, hl, hs, ho, hok, hj] using h) hs
            | ok dbId =>
              refine Or.inr ⟨env, project, prompt, rfl, hl, ⟨st, body, ho, hok⟩,
                dbId, hj, ?_⟩
              simp [step, hl, hs, ho, hok, hj]
  | toolExecuteAfter env t c =>
    left
    have : (step sid s (Event.toolExecuteAfter env t c)).1 = s := by
      simp only [step]
      repeat' split
      all_goals rfl
    rwa [this] at h
  | systemTransform env p sys =>
    left
    have : (step sid s (Event.systemTransform env p sys)).1 = s := by
      simp only [step]
      repeat' split
      all_goals rfl
    rwa [this] at h
  | sessionCompacting env msgs =>
    left
    have : (step sid s (Event.sessionCompacting env msgs)).1 = s := by
      simp only [step]
      repeat' split
      all_goals rfl
    rwa [this] at h
  | toolCall env call =>
    left
    have : (step sid s (Event.toolCall env call)).1 = s := by
      cases call <;> rfl
    rwa [this] at h

/-- Witness for C9: a chat message with passing liveness, a 200 init
response and a decoded body carrying `sessionDbId = 7` flips the flag
and records the id. -/
theorem C9_witness :
    (step "sid" initialState (Event.chatMessage
        ⟨FetchOutcome.resp 200 "ok", FetchOutcome.resp 200 "body",
          Except.ok (some 7)⟩ "proj" "hi")).1.sessionInitialized = true ∧
    initialState.sessionInitialized = false := by
  have h := C9_initialized_flag
  refine ⟨by decide, h.1.1⟩

/-- C1 fails as stated: two chat-message events where the first init
POST returns a non-success status produce two `sessions/init` POSTs, not
exactly one — a failed first attempt is retried on the next prompt
event, because the initialized flag is only set on a success status. -/
theorem C1_counterexample :
    initCount (run "sid" initialState
      [Event.chatMessage
        ⟨FetchOutcome.resp 200 "ok", FetchOutcome.resp 500 "err", Except.ok none⟩
        "proj" "hi",
       Event.chatMessage
        ⟨FetchOutcome.resp 200 "ok", FetchOutcome.resp 200 "body", Except.ok (some 1)⟩
        "proj" "hi"]).2 = 2 := by
  decide

/-- C1 (amended): initialization is at-most-once *successful* per
process.  A chat-message event issues exactly one `sessions/init` POST
when the session is still uninitialized and its liveness check passes,
and zero otherwise (in particular zero whenever the liveness check
fails); once the flag is set by a successful attempt, no later event of
any kind ever issues another init POST.  A failed attempt, however,
leaves the flag unset and is retried on the next prompt event whose
liveness check passes. -/
theorem C1_init_once_successful (sid : String) (s : PluginState)
    (env : ChatEnv) (project prompt : String) :
    (initCount (step sid s (Event.chatMessage env project prompt)).2.1 =
      if s.sessionInitialized = false ∧ ensureWorker env.liveness = true
      then 1 else 0) ∧
    (∀ events : List Event, s.sessionInitialized = true →
      initCount (run sid s events).2 = 0) := by
  constructor
  · exact initCount_step sid s (Event.chatMessage env project prompt)
  · intro events hs
    exact run_initialized_no_init sid events s hs

/-- Witness for C1 (amended): after a successful initialization, a
subsequent run of two further chat messages issues zero init POSTs. -/
theorem C1_witness :
    initCount (run "sid" { sessionInitialized := true, sessionDbId := some 1 }
      [Event.chatMessage
        ⟨FetchOutcome.resp 200 "ok", FetchOutcome.resp 200 "body", Except.ok none⟩
        "proj" "a",
       Event.chatMessage
        ⟨FetchOutcome.resp 200 "ok", FetchOutcome.resp 200 "body", Except.ok none⟩
        "proj" "b"]).2 = 0 :=
  (C1_init_once_successful "sid" { sessionInitialized := true, sessionDbId := some 1 }
    ⟨FetchOutcome.resp 200 "ok", FetchOutcome.resp 200 "body", Except.ok none⟩
    "proj" "a").2 _ rfl

/-- C2 fails as stated: a tool-execution event received before any chat
message does issue a network request — the liveness probe
(`GET /api/readiness`) runs before the initialized gate — so the request
list is the singleton readiness probe, not empty. -/
theorem C2_counterexample :
    (step "sid" initialState (Event.toolExecuteAfter
      ⟨FetchOutcome.resp 200 "ok", FetchOutcome.resp 200 "ok"⟩ "Bash" "/repo")).2.1
      = [Request.readiness] ∧
    ([Request.readiness] : List Request) ≠ [] := by
  exact ⟨rfl, by simp⟩

/-- C2 (amended): while the session is uninitialized,
`tool.execute.after` and `experimental.session.compacting` are no-ops up
to the liveness probe: they leave the closure state unchanged and issue
no request other than the readiness probe — in particular no dispatch to
any memory endpoint, whatever the liveness outcome. -/
theorem C2_uninitialized_no_dispatch (sid : String) (s : PluginState)
    (h : s.sessionInitialized = false) (env : DispatchEnv)
    (toolName cwd : String) (messages : List Msg) :
    ((step sid s (Event.toolExecuteAfter env toolName cwd)).1 = s ∧
      ((step sid s (Event.toolExecuteAfter env toolName cwd)).2.1.filter isDispatch)
        = []) ∧
    ((step sid s (Event.sessionCompacting env messages)).1 = s ∧
      ((step sid s (Event.sessionCompacting env messages)).2.1.filter isDispatch)
        = []) := by
  cases hl : ensureWorker env.liveness <;> simp [step, hl, h, isDispatch]

/-- Witness for C2 (amended): before any chat message, a tool-execution
event leaves the fresh state unchanged and issues no dispatch request. -/
theorem C2_witness :
    (step "sid" initialState (Event.toolExecuteAfter
      ⟨FetchOutcome.resp 200 "ok", FetchOutcome.resp 200 "ok"⟩ "Bash" "/repo")).1
      = initialState ∧
    ((step "sid" initialState (Event.toolExecuteAfter
      ⟨FetchOutcome.resp 200 "ok", FetchOutcome.resp 200 "ok"⟩ "Bash" "/repo")).2.1.filter
        isDispatch) = [] :=
  (C2_uninitialized_no_dispatch "sid" initialState rfl
    ⟨FetchOutcome.resp 200 "ok", FetchOutcome.resp 200 "ok"⟩ "Bash" "/repo" []).1

/-- C8: the query tools never mutate the session state — a single tool
invocation, with any parameters and any remote outcome, returns the
closure state unchanged, and so does any run made up solely of tool
invocations. -/
theorem C8_tools_preserve_state (sid : String) (s : PluginState)
    (env : ToolEnv) (call : ToolCall) (events : List Event)
    (h : ∀ e ∈ events, isToolCall e = true) :
    (step sid s (Event.toolCall env call)).1 = s ∧ (run sid s events).1 = s := by
  constructor
  · cases call <;> rfl
  · induction events generalizing s with
    | nil => rfl
    | cons e rest ih =>
      have he : isToolCall e = true := h e (List.mem_cons_self e rest)
      have hstep : (step sid s e).1 = s := by
        cases e with
        | chatMessage env' p q => simp [isToolCall] at he
        | toolExecuteAfter env' t c => simp [isToolCall] at he
        | systemTransform env' p sys => simp [isToolCall] at he
        | sessionCompacting env' m => simp [isToolCall] at he
        | toolCall env' call' => cases call' <;> rfl
      have hrest := ih (fun x hx => h x (List.mem_cons_of_mem e hx)) (s := (step sid s e).1)
      simp only [run]
      rw [hstep] at hrest ⊢
      exact hrest

/-- Witness for C8: two tool calls in a row (a search with a failing
liveness probe, then a batch fetch with a successful one) leave the
fresh state exactly as it was. -/
theorem C8_witness :
    (run "sid" initialState
      [Event.toolCall ⟨FetchOutcome.timeout, FetchOutcome.timeout, Except.error "down"⟩
        (ToolCall.memSearch [("query", JSValue.str "x")]),
       Event.toolCall ⟨FetchOutcome.resp 200 "ok", FetchOutcome.resp 200 "body",
          Except.ok (JSValue.obj [])⟩
        (ToolCall.memGetObservations [1, 2])]).1 = initialState :=
  (C8_tools_preserve_state "sid" initialState
    ⟨FetchOutcome.timeout, FetchOutcome.timeout, Except.error "down"⟩
    (ToolCall.memSearch [("query", JSValue.str "x")]) _
    (by intro e he; simp at he; rcases he with h | h <;> simp [h, isToolCall])).2

/-- C10: the remote-assigned `sessionDbId` is write-only.  The requests
a handler issues and the host-visible output it produces are identical
for any two states differing only in `sessionDbId` (the field is never
read), and every request body that carries a `contentSessionId` carries
the locally generated `sessionId` — `sessionDbId` appears in no
request. -/
theorem C10_sessionDbId_write_only (sid : String) (b : Bool)
    (d₁ d₂ : Option Int) (e : Event) :
    (step sid ⟨b, d₁⟩ e).2 = (step sid ⟨b, d₂⟩ e).2 ∧
    (∀ r ∈ (step sid ⟨b, d₁⟩ e).2.1, ∀ x, reqContentSessionId r = some x → x = sid) := by
  constructor
  · cases e with
    | chatMessage env project prompt =>
      simp only [step]
      repeat' split
      all_goals simp_all
    | toolExecuteAfter env t c =>
      simp only [step]
      repeat' split
      all_goals simp_all
    | systemTransform env p sys =>
      simp only [step]
      repeat' split
      all_goals simp_all
    | sessionCompacting env msgs =>
      simp only [step]
      repeat' split
      all_goals simp_all
    | toolCall env call => cases call <;> rfl
  · cases e with
    | chatMessage env project prompt =>
      simp only [step]
      repeat' split
      all_goals simp_all [reqContentSessionId]
    | toolExecuteAfter env t c =>
      simp only [step]
      repeat' split
      all_goals simp_all [reqContentSessionId]
    | systemTransform env p sys =>
      simp only [step]
      repeat' split
      all_goals simp_all [reqContentSessionId]
    | sessionCompacting env msgs =>
      simp only [step]
      repeat' split
      all_goals simp_all [reqContentSessionId]
    | toolCall env call =>
      cases call <;>
        simp only [step, memSearchExecute, memTimelineExecute,
          memGetObservationsExecute] <;>
        (repeat' split) <;>
        simp_all [reqContentSessionId]

/-- Witness for C10: with the flag set and two different recorded ids,
an observation capture issues identical requests, each carrying the
local session id. -/
theorem C10_witness :
    (step "local-sid" ⟨true, some 1⟩ (Event.toolExecuteAfter
      ⟨FetchOutcome.resp 200 "ok", FetchOutcome.resp 200 "ok"⟩ "Bash" "/repo")).2 =
    (step "local-sid" ⟨true, some 99⟩ (Event.toolExecuteAfter
      ⟨FetchOutcome.resp 200 "ok", FetchOutcome.resp 200 "ok"⟩ "Bash" "/repo")).2 :=
  (C10_sessionDbId_write_only "local-sid" true (some 1) (some 99)
    (Event.toolExecuteAfter ⟨FetchOutcome.resp 200 "ok", FetchOutcome.resp 200 "ok"⟩
      "Bash" "/repo")).1

/-- The never-throw contract of one query tool's `execute` for a given
environment: a failing liveness probe yields the fixed unavailability
error; a thrown network error, a timeout, a non-success status, or a
body-decoding failure each yield some structured error string; a success
status with a decoded body passes the decoded value through unmodified;
and in every case the call resolves to one of the two `ToolResult`
shapes (it never throws). -/
def toolContract (env : ToolEnv) (r : ToolResult) : Prop :=
  (ensureWorker env.liveness = false →
    r = ToolResult.failure "Worker service unavailable") ∧
  (∀ m, env.callOutcome = FetchOutcome.netError m → ∃ e, r = ToolResult.failure e) ∧
  (env.callOutcome = FetchOutcome.timeout → ∃ e, r = ToolResult.failure e) ∧
  (∀ st body, env.callOutcome = FetchOutcome.resp st body → respOk st = false →
    ∃ e, r = ToolResult.failure e) ∧
  (∀ st body m, env.callOutcome = FetchOutcome.resp st body → respOk st = true →
    env.jsonResult = Except.error m → ∃ e, r = ToolResult.failure e) ∧
  (∀ st body v, ensureWorker env.liveness = true →
    env.callOutcome = FetchOutcome.resp st body → respOk st = true →
    env.jsonResult = Except.ok v → r = ToolResult.success v) ∧
  ((∃ e, r = ToolResult.failure e) ∨ ∃ v, r = ToolResult.success v)

/-- Canonical value of a query tool's `execute`, parameterized by the
two tool-specific message prefixes; the three executes all evaluate to
this shape. -/
def queryResultShape (env : ToolEnv) (failPrefix errPrefix : String) : ToolResult :=
  if ensureWorker env.liveness = false then
    ToolResult.failure "Worker service unavailable"
  else
    match env.callOutcome with
    | FetchOutcome.netError m => ToolResult.failure (errPrefix ++ m)
    | FetchOutcome.timeout =>
      ToolResult.failure (errPrefix ++ "The operation timed out")
    | FetchOutcome.resp st _ =>
      if respOk st = false then ToolResult.failure (failPrefix ++ toString st)
      else
        match env.jsonResult with
        | Except.ok v => ToolResult.success v
        | Except.error m => ToolResult.failure (errPrefix ++ m)

/-- Helper: `mem-search` evaluates to the canonical shape. -/
theorem memSearchExecute_result (env : ToolEnv) (params : List (String × JSValue)) :
    (memSearchExecute env params).1 =
      queryResultShape env "Search failed: " "Search error: " := by
  cases hl : ensureWorker env.liveness <;>
    cases ho : env.callOutcome <;>
      cases hj : env.jsonResult <;>
        simp [memSearchExecute, queryResultShape, doFetch, hl, ho, hj,
          Bind.bind, Except.bind, Pure.pure, Except.pure, Except.instMonad] <;>
          (repeat' split) <;> simp_all

/-- Helper: `mem-timeline` evaluates to the canonical shape. -/
theorem memTimelineExecute_result (env : ToolEnv) (params : List (String × JSValue)) :
    (memTimelineExecute env params).1 =
      queryResultShape env "Timeline failed: " "Timeline error: " := by
  cases hl : ensureWorker env.liveness <;>
    cases ho : env.callOutcome <;>
      cases hj : env.jsonResult <;>
        simp [memTimelineExecute, queryResultShape, doFetch, hl, ho, hj,
          Bind.bind, Except.bind, Pure.pure, Except.pure, Except.instMonad] <;>
          (repeat' split) <;> simp_all

/-- Helper: `mem-get-observations` evaluates to the canonical shape. -/
theorem memGetObservationsExecute_result (env : ToolEnv) (ids : List Int) :
    (memGetObservationsExecute env ids).1 =
      queryResultShape env "Fetch failed: " "Fetch error: " := by
  cases hl : ensureWorker env.liveness <;>
    cases ho : env.callOutcome <;>
      cases hj : env.jsonResult <;>
        simp [memGetObservationsExecute, queryResultShape, doFetch, hl, ho, hj,
          Bind.bind, Except.bind, Pure.pure, Except.pure, Except.instMonad] <;>
          (repeat' split) <;> simp_all

/-- Helper: the canonical shape satisfies the never-throw contract. -/
theorem queryResultShape_contract (env : ToolEnv) (failPrefix errPrefix : String) :
    toolContract env (queryResultShape env failPrefix errPrefix) := by
  unfold toolContract queryResultShape
  cases hl : ensureWorker env.liveness <;>
    cases ho : env.callOutcome <;>
      cases hj : env.jsonResult <;>
        simp_all <;> (repeat' split) <;> simp_all

/-- C7: each of the three query tools (`mem-search`, `mem-timeline`,
`mem-get-observations`) satisfies the never-throw contract: on every
failure — liveness-probe failure, network error, thrown exception
(including a body-decoding one), or non-success HTTP status — its
`execute` resolves to a structured error result, and on success it
passes the decoded remote response through unmodified. -/
theorem C7_tools_never_throw (env : ToolEnv) (params : List (String × JSValue))
    (ids : List Int) :
    toolContract env (memSearchExecute env params).1 ∧
    toolContract env (memTimelineExecute env params).1 ∧
    toolContract env (memGetObservationsExecute env ids).1 := by
  rw [memSearchExecute_result, memTimelineExecute_result,
    memGetObservationsExecute_result]
  exact ⟨queryResultShape_contract env _ _, queryResultShape_contract env _ _,
    queryResultShape_contract env _ _⟩

end OpencodeMem
